import Mathlib

/-!
Verification of the startup-configuration fragment of the repository
(app/config.py, app/__init__.py, app/extensions.py).

The program under study is the module-import effect of app/config.py:

  load_dotenv()                                   -- may add .env entries to the environment
  class Config:
    SECRET_KEY = os.getenv("SECRET_KEY", os.urandom(24).hex())
    SQLALCHEMY_DATABASE_URI = os.getenv("DATABASE_URL", "sqlite:///inventory.db")
    SQLALCHEMY_TRACK_MODIFICATIONS = False
    WTF_CSRF_ENABLED = True
    TALISMAN_ENABLED = True
    TALISMAN_CSP = { default-src, style-src, script-src allow lists }
    SESSION_COOKIE_HTTPONLY = True
    SESSION_COOKIE_SAMESITE = "Lax"
    FERNET_KEY = os.getenv("FERNET_KEY", Fernet.generate_key().decode())
    RATE_LIMIT_STORAGE_URL = os.getenv("REDIS_URL", "redis://redis:6379/0")

together with create_app in app/__init__.py, which copies Config into the
application and registers six blueprints under fixed URL mount points.

Randomness (os.urandom) is modelled by threading an explicit entropy stream,
a list of bytes, through the construction: os.urandom(n) takes the next n
bytes of the stream.  Library collaborators are embedded from their
documented behaviour: os.getenv returns the environment value when the
variable is set and the (eagerly evaluated) default otherwise;
python-dotenv load_dotenv() sets each variable of the .env file that is not
already present in the process environment (override=False, later file
entries shadowing earlier ones); Fernet.generate_key() is
base64.urlsafe_b64encode(os.urandom(32)); bytes.hex() is lowercase hex.
-/

/-- A process environment: a partial map from variable names to values. -/
abbrev Env := String → Option String

/-- A parsed .env file: key/value pairs in file order. -/
abbrev DotenvFile := List (String × String)

/-- The dictionary a .env file denotes: a later entry for the same key
shadows an earlier one (python-dotenv builds a dict top to bottom). -/
def dotenvValues : DotenvFile → String → Option String
  | [], _ => none
  | (k, v) :: rest, name =>
    match dotenvValues rest name with
    | some w => some w
    | none => if name = k then some v else none

/-- python-dotenv load_dotenv() with default arguments: each variable of the
.env file that is absent from the process environment is added; variables
already set are left untouched (override=False). -/
def load_dotenv (file : DotenvFile) (env : Env) : Env :=
  fun name =>
    match env name with
    | some v => some v
    | none => dotenvValues file name

/-- os.getenv(name, default): the environment value when set, else the default. -/
def os_getenv (env : Env) (name dflt : String) : String :=
  (env name).getD dflt

/-- Lowercase hexadecimal digit, as used by bytes.hex(): the ten digits
(code points 48 to 57), then a to f (code points 97 to 102). -/
def hexDigit (n : Nat) : Char :=
  if n < 10 then Char.ofNat (48 + n)
  else if n < 16 then Char.ofNat (87 + n)
  else Char.ofNat 63

/-- bytes.hex(): two lowercase hex digits per byte, high nibble first. -/
def bytesToHex : List Nat → List Char
  | [] => []
  | b :: rest => hexDigit (b / 16) :: hexDigit (b % 16) :: bytesToHex rest

/-- Code point of position i of the URL-safe base64 alphabet of RFC 4648:
the 26 capitals, the 26 lowercase letters, the 10 digits, minus (45),
underscore (95). -/
def b64CodePoint (i : Nat) : Nat :=
  if i < 26 then 65 + i
  else if i < 52 then 97 + (i - 26)
  else if i < 62 then 48 + (i - 52)
  else if i = 62 then 45
  else 95

/-- The character encoding a 6-bit value. -/
def b64Char (i : Nat) : Char := Char.ofNat (b64CodePoint i)

/-- The 6-bit value a base64url character decodes to, if any: the position
of the character in the URL-safe alphabet. -/
def b64Index (c : Char) : Option Nat :=
  if 65 ≤ c.toNat ∧ c.toNat < 91 then some (c.toNat - 65)
  else if 97 ≤ c.toNat ∧ c.toNat < 123 then some (26 + (c.toNat - 97))
  else if 48 ≤ c.toNat ∧ c.toNat < 58 then some (52 + (c.toNat - 48))
  else if c.toNat = 45 then some 62
  else if c.toNat = 95 then some 63
  else none

/-- The 6-bit groups of a byte sequence, 4 groups per 3 bytes, with the
final 1- or 2-byte chunk packed into 2 or 3 groups (RFC 4648). -/
def encSextets : List Nat → List Nat
  | a :: b :: c :: rest =>
    a / 4 :: ((a % 4) * 16 + b / 16) :: ((b % 16) * 4 + c / 64) :: c % 64 ::
      encSextets rest
  | [a, b] => [a / 4, (a % 4) * 16 + b / 16, (b % 16) * 4]
  | [a] => [a / 4, (a % 4) * 16]
  | [] => []

/-- The padding characters base64 appends for a trailing 1- or 2-byte chunk. -/
def padChars : List Nat → List Char
  | _ :: _ :: _ :: rest => padChars rest
  | [_, _] => ['=']
  | [_] => ['=', '=']
  | [] => []

/-- base64.urlsafe_b64encode: 6-bit groups mapped through the URL-safe
alphabet, followed by = padding. -/
def b64urlEncode (bs : List Nat) : List Char :=
  (encSextets bs).map b64Char ++ padChars bs

/-- Repack a sequence of 6-bit groups into bytes, inverse of encSextets. -/
def sextetsToBytes : List Nat → List Nat
  | i1 :: i2 :: i3 :: i4 :: rest =>
    (i1 * 4 + i2 / 16) :: ((i2 % 16) * 16 + i3 / 4) :: ((i3 % 4) * 64 + i4) ::
      sextetsToBytes rest
  | [i1, i2, i3] => [i1 * 4 + i2 / 16, (i2 % 16) * 16 + i3 / 4]
  | [i1, i2] => [i1 * 4 + i2 / 16]
  | _ => []

/-- Decode each character through the base64url alphabet, failing on a
character outside it. -/
def mapIndex : List Char → Option (List Nat)
  | [] => some []
  | c :: rest =>
    match b64Index c, mapIndex rest with
    | some i, some is => some (i :: is)
    | _, _ => none

/-- base64.urlsafe_b64decode: drop padding, map characters to 6-bit values,
repack into bytes. -/
def b64urlDecode (s : List Char) : Option (List Nat) :=
  (mapIndex (s.filter (fun c => c != '='))).map sextetsToBytes

/-- A value of the TALISMAN_CSP dictionary: the source maps default-src to a
single string and style-src / script-src to lists of strings. -/
inductive CSPValue where
  | single : String → CSPValue
  | multi : List String → CSPValue
deriving DecidableEq, Repr

/-- The Config class of app/config.py, one field per class attribute.
Spec names: secretKey = SECRET_KEY, databaseLocation =
SQLALCHEMY_DATABASE_URI, encryptionKey = FERNET_KEY,
rateLimitBackendLocation = RATE_LIMIT_STORAGE_URL, contentSecurityPolicy =
TALISMAN_CSP, cookiePolicy = (SESSION_COOKIE_HTTPONLY,
SESSION_COOKIE_SAMESITE). -/
structure Config where
  SECRET_KEY : String
  SQLALCHEMY_DATABASE_URI : String
  SQLALCHEMY_TRACK_MODIFICATIONS : Bool
  WTF_CSRF_ENABLED : Bool
  TALISMAN_ENABLED : Bool
  TALISMAN_CSP : List (String × CSPValue)
  SESSION_COOKIE_HTTPONLY : Bool
  SESSION_COOKIE_SAMESITE : String
  FERNET_KEY : String
  RATE_LIMIT_STORAGE_URL : String
deriving DecidableEq, Repr

/-- The Config class body given the effective environment and the random
values already drawn: every os.getenv default is written out exactly as in
app/config.py. -/
def configOf (env2 : Env) (r1 r2 : List Nat) : Config :=
  { SECRET_KEY := os_getenv env2 "SECRET_KEY" (String.mk (bytesToHex r1))
    SQLALCHEMY_DATABASE_URI :=
      os_getenv env2 "DATABASE_URL" "sqlite:///inventory.db"
    SQLALCHEMY_TRACK_MODIFICATIONS := false
    WTF_CSRF_ENABLED := true
    TALISMAN_ENABLED := true
    TALISMAN_CSP :=
      [("default-src", CSPValue.single "\x27self\x27"),
       ("style-src", CSPValue.multi ["\x27self\x27", "https://cdn.jsdelivr.net"]),
       ("script-src", CSPValue.multi ["\x27self\x27", "https://cdn.jsdelivr.net"])]
    SESSION_COOKIE_HTTPONLY := true
    SESSION_COOKIE_SAMESITE := "Lax"
    FERNET_KEY := os_getenv env2 "FERNET_KEY" (String.mk (b64urlEncode r2))
    RATE_LIMIT_STORAGE_URL :=
      os_getenv env2 "REDIS_URL" "redis://redis:6379/0" }

/-- The import-time effect of app/config.py, the loadConfig() of the spec:
run load_dotenv over the process environment, then execute the Config class
body top to bottom.  os.urandom(24) for the SECRET_KEY default draws the
first 24 bytes of the entropy stream, Fernet.generate_key() for the
FERNET_KEY default draws the next 32 (Python evaluates both defaults
eagerly, whether or not the variable is set).  Returns the configuration,
the process environment after the call, and the rest of the entropy
stream. -/
def loadConfig (file : DotenvFile) (env : Env) (s : List Nat) :
    Config × Env × List Nat :=
  let env2 := load_dotenv file env
  let r1 := s.take 24
  let s1 := s.drop 24
  let r2 := s1.take 32
  let s2 := s1.drop 32
  (configOf env2 r1 r2, env2, s2)

/-- The blueprints registered by create_app in app/__init__.py. -/
inductive Blueprint where
  | auth_bp | auth_api | clients_api | networks_api | projects_api | users_api
deriving DecidableEq, Repr

/-- The register_blueprint calls of create_app, in source order: each
blueprint with the URL mount point passed for it. -/
def blueprintMounts : List (Blueprint × String) :=
  [(Blueprint.auth_bp, "/auth"),
   (Blueprint.auth_api, "/api/auth"),
   (Blueprint.clients_api, "/api/clients"),
   (Blueprint.networks_api, "/api/networks"),
   (Blueprint.projects_api, "/api/projects"),
   (Blueprint.users_api, "/api/users")]

/-- The application create_app returns: its configuration, copied from the
Config class by app.config.from_object, and the registered blueprints. -/
structure App where
  config : Config
  mounts : List (Blueprint × String)
deriving Repr

/-- create_app of app/__init__.py: copy the Config class into the
application and register the six blueprints. -/
def create_app (c : Config) : App :=
  { config := c, mounts := blueprintMounts }

/-- The empty process environment. -/
def envEmpty : Env := fun _ => none

/-- An environment with every variable set to the same value, for witnesses. -/
def envAllSet : Env := fun _ => some "val"

theorem b64Index_b64Char : ∀ i, i < 64 → b64Index (b64Char i) = some i := by
  decide

theorem b64Char_ne_pad : ∀ i, i < 64 → (b64Char i != '=') = true := by
  decide

theorem hexDigit_inj :
    ∀ i, i < 16 → ∀ j, j < 16 → hexDigit i = hexDigit j → i = j := by
  decide

theorem bytesToHex_inj :
    ∀ r1, (∀ b ∈ r1, b < 256) → ∀ r2, (∀ b ∈ r2, b < 256) →
      bytesToHex r1 = bytesToHex r2 → r1 = r2
  | [], _, [], _, _ => rfl
  | [], _, _ :: _, _, h => by simp [bytesToHex] at h
  | _ :: _, _, [], _, h => by simp [bytesToHex] at h
  | a :: r1, h1, b :: r2, h2, h => by
    simp only [bytesToHex, List.cons.injEq] at h
    obtain ⟨hd1, hd2, hrest⟩ := h
    have ha : a < 256 := h1 a (by simp)
    have hb : b < 256 := h2 b (by simp)
    have e1 : a / 16 = b / 16 := hexDigit_inj _ (by omega) _ (by omega) hd1
    have e2 : a % 16 = b % 16 := hexDigit_inj _ (by omega) _ (by omega) hd2
    have hab : a = b := by omega
    have htail := bytesToHex_inj r1 (fun x hx => h1 x (by simp [hx]))
      r2 (fun x hx => h2 x (by simp [hx])) hrest
    simp [hab, htail]

theorem filter_map_b64Char :
    ∀ is : List Nat, (∀ i ∈ is, i < 64) →
      (is.map b64Char).filter (fun c => c != '=') = is.map b64Char
  | [], _ => rfl
  | i :: is, h => by
    simp only [List.map_cons, List.filter_cons]
    rw [b64Char_ne_pad i (h i (by simp))]
    simp [filter_map_b64Char is (fun x hx => h x (by simp [hx]))]

theorem filter_padChars :
    ∀ bs : List Nat, (padChars bs).filter (fun c => c != '=') = []
  | _ :: _ :: _ :: rest => filter_padChars rest
  | [_, _] => rfl
  | [_] => rfl
  | [] => rfl

theorem mapIndex_map_b64Char :
    ∀ is : List Nat, (∀ i ∈ is, i < 64) → mapIndex (is.map b64Char) = some is
  | [], _ => rfl
  | i :: is, h => by
    simp only [List.map_cons, mapIndex]
    rw [b64Index_b64Char i (h i (by simp)),
      mapIndex_map_b64Char is (fun x hx => h x (by simp [hx]))]

theorem encSextets_lt :
    ∀ bs, (∀ b ∈ bs, b < 256) → ∀ i ∈ encSextets bs, i < 64
  | a :: b :: c :: rest, h => by
    have ha : a < 256 := h a (by simp)
    have hb : b < 256 := h b (by simp)
    have hc : c < 256 := h c (by simp)
    intro i hi
    simp only [encSextets, List.mem_cons] at hi
    rcases hi with rfl | rfl | rfl | rfl | hi
    · omega
    · omega
    · omega
    · omega
    · exact encSextets_lt rest (fun x hx => h x (by simp [hx])) i hi
  | [a, b], h => by
    have ha : a < 256 := h a (by simp)
    have hb : b < 256 := h b (by simp)
    intro i hi
    simp only [encSextets, List.mem_cons, List.not_mem_nil, or_false] at hi
    rcases hi with rfl | rfl | rfl <;> omega
  | [a], h => by
    have ha : a < 256 := h a (by simp)
    intro i hi
    simp only [encSextets, List.mem_cons, List.not_mem_nil, or_false] at hi
    rcases hi with rfl | rfl <;> omega
  | [], _ => by intro i hi; simp [encSextets] at hi

theorem sextetsToBytes_encSextets :
    ∀ bs, (∀ b ∈ bs, b < 256) → sextetsToBytes (encSextets bs) = bs
  | a :: b :: c :: rest, h => by
    have ha : a < 256 := h a (by simp)
    have hb : b < 256 := h b (by simp)
    have hc : c < 256 := h c (by simp)
    have ih := sextetsToBytes_encSextets rest (fun x hx => h x (by simp [hx]))
    simp only [encSextets, sextetsToBytes, ih, List.cons.injEq]
    refine ⟨by omega, by omega, by omega, trivial⟩
  | [a, b], h => by
    have ha : a < 256 := h a (by simp)
    have hb : b < 256 := h b (by simp)
    simp only [encSextets, sextetsToBytes, List.cons.injEq]
    refine ⟨by omega, by omega, trivial⟩
  | [a], h => by
    have ha : a < 256 := h a (by simp)
    simp only [encSextets, sextetsToBytes, List.cons.injEq]
    refine ⟨by omega, trivial⟩
  | [], _ => rfl

theorem b64url_roundtrip (bs : List Nat) (h : ∀ b ∈ bs, b < 256) :
    b64urlDecode (b64urlEncode bs) = some bs := by
  unfold b64urlDecode b64urlEncode
  rw [List.filter_append, filter_map_b64Char _ (encSextets_lt bs h),
    filter_padChars, List.append_nil, mapIndex_map_b64Char _ (encSextets_lt bs h)]
  simp [sextetsToBytes_encSextets bs h]

/-- Claim C1: for every supported environment variable (SECRET_KEY,
DATABASE_URL, FERNET_KEY, REDIS_URL), if it is set in the process
environment then loadConfig returns that exact string unmodified in the
corresponding Config field (SECRET_KEY, SQLALCHEMY_DATABASE_URI,
FERNET_KEY, RATE_LIMIT_STORAGE_URL), for any .env file and any entropy
stream. -/
theorem c1_env_values_verbatim
    (file : DotenvFile) (env : Env) (s : List Nat) (v : String) :
    (env "SECRET_KEY" = some v → (loadConfig file env s).1.SECRET_KEY = v) ∧
    (env "DATABASE_URL" = some v →
      (loadConfig file env s).1.SQLALCHEMY_DATABASE_URI = v) ∧
    (env "FERNET_KEY" = some v → (loadConfig file env s).1.FERNET_KEY = v) ∧
    (env "REDIS_URL" = some v →
      (loadConfig file env s).1.RATE_LIMIT_STORAGE_URL = v) := by
  refine ⟨fun h => ?_, fun h => ?_, fun h => ?_, fun h => ?_⟩ <;>
    simp [loadConfig, configOf, os_getenv, load_dotenv, h]

/-- Witness for C1 at a concrete environment with every variable set. -/
theorem c1_env_values_verbatim_witness :
    (loadConfig [] envAllSet []).1.SECRET_KEY = "val" ∧
    (loadConfig [] envAllSet []).1.SQLALCHEMY_DATABASE_URI = "val" ∧
    (loadConfig [] envAllSet []).1.FERNET_KEY = "val" ∧
    (loadConfig [] envAllSet []).1.RATE_LIMIT_STORAGE_URL = "val" := by
  have h := c1_env_values_verbatim [] envAllSet [] "val"
  exact ⟨h.1 rfl, h.2.1 rfl, h.2.2.1 rfl, h.2.2.2 rfl⟩

/-- Claim C2 (code behaviour at the failing input): with SECRET_KEY and
FERNET_KEY absent from the environment and from any .env file, loadConfig
does not fail: it is a total function that silently substitutes the freshly
generated ephemeral values (the urandom hex string, the generated Fernet
key) instead of raising a ConfigurationError.  No failure path exists in
app/config.py. -/
theorem c2_no_failure_silent_generation (s : List Nat) :
    (loadConfig [] envEmpty s).1.SECRET_KEY =
      String.mk (bytesToHex (s.take 24)) ∧
    (loadConfig [] envEmpty s).1.FERNET_KEY =
      String.mk (b64urlEncode ((s.drop 24).take 32)) :=
  ⟨rfl, rfl⟩

/-- Counterexample to claim C3 as stated: with an empty process environment
and a .env file defining NEWVAR, the environment after loadConfig maps
NEWVAR to a value although it was unset before, so the environment is not
unchanged. -/
theorem c3_env_mutated :
    (loadConfig [("NEWVAR", "x")] envEmpty []).2.1 "NEWVAR" = some "x" ∧
    envEmpty "NEWVAR" = none :=
  ⟨rfl, rfl⟩

/-- Claim C3 as amended: the only environment effect of loadConfig is that
of load_dotenv: a variable already set keeps its value verbatim (never
removed or rewritten), and with no .env file entries the environment is
wholly unchanged. -/
theorem c3_env_effect (file : DotenvFile) (env : Env) (s : List Nat) :
    (∀ n v, env n = some v → (loadConfig file env s).2.1 n = some v) ∧
    (loadConfig [] env s).2.1 = env := by
  constructor
  · intro n v h
    simp [loadConfig, load_dotenv, h]
  · funext n
    show load_dotenv [] env n = env n
    unfold load_dotenv
    cases env n <;> rfl

/-- Witness for the amended C3 at a concrete environment and file. -/
theorem c3_env_effect_witness :
    (loadConfig [("A", "b")] envAllSet []).2.1 "A" = some "val" :=
  (c3_env_effect [("A", "b")] envAllSet []).1 "A" "val" rfl

/-- Counterexample to claim C4 as stated: DATABASE_URL is unset in the
process environment, yet a .env file entry for it makes
SQLALCHEMY_DATABASE_URI differ from the documented default. -/
theorem c4_dotenv_overrides_default :
    envEmpty "DATABASE_URL" = none ∧
    (loadConfig [("DATABASE_URL", "postgres://db/x")] envEmpty
        []).1.SQLALCHEMY_DATABASE_URI = "postgres://db/x" ∧
    (loadConfig [("DATABASE_URL", "postgres://db/x")] envEmpty
        []).1.SQLALCHEMY_DATABASE_URI ≠ "sqlite:///inventory.db" := by
  refine ⟨rfl, rfl, ?_⟩
  decide

/-- Claim C4 as amended: when DATABASE_URL is unset in the process
environment and not supplied by the .env file either, the
SQLALCHEMY_DATABASE_URI field equals the default sqlite:///inventory.db. -/
theorem c4_default_database (file : DotenvFile) (env : Env) (s : List Nat)
    (h1 : env "DATABASE_URL" = none)
    (h2 : dotenvValues file "DATABASE_URL" = none) :
    (loadConfig file env s).1.SQLALCHEMY_DATABASE_URI =
      "sqlite:///inventory.db" := by
  simp [loadConfig, configOf, os_getenv, load_dotenv, h1, h2]

/-- Witness for the amended C4 at the empty environment and empty file. -/
theorem c4_default_database_witness :
    (loadConfig [] envEmpty []).1.SQLALCHEMY_DATABASE_URI =
      "sqlite:///inventory.db" :=
  c4_default_database [] envEmpty [] rfl rfl

/-- Claim C5: for every environment, .env file and entropy stream, the
TALISMAN_CSP of the configuration returned by loadConfig maps the
default-src directive to exactly the single source self. -/
theorem c5_csp_default_src_self (file : DotenvFile) (env : Env) (s : List Nat) :
    ((loadConfig file env s).1.TALISMAN_CSP).lookup "default-src" =
      some (CSPValue.single "\x27self\x27") :=
  rfl

/-- Claim C6: whenever the FERNET_KEY field is generated (the variable is
absent from the effective environment, so the Fernet.generate_key default
is used), the URL-safe-base64 value decodes to exactly the 32 raw entropy
bytes it was generated from.  The entropy stream is a byte stream of length
at least 56 (24 bytes for the SECRET_KEY default drawn first, then the 32
key bytes). -/
theorem c6_generated_fernet_key_32_bytes
    (file : DotenvFile) (env : Env) (s : List Nat)
    (h : load_dotenv file env "FERNET_KEY" = none)
    (hlen : 56 ≤ s.length) (hb : ∀ b ∈ s, b < 256) :
    b64urlDecode ((loadConfig file env s).1.FERNET_KEY).data =
      some ((s.drop 24).take 32) ∧
    ((s.drop 24).take 32).length = 32 := by
  have hkey : (loadConfig file env s).1.FERNET_KEY =
      String.mk (b64urlEncode ((s.drop 24).take 32)) := by
    simp [loadConfig, configOf, os_getenv, h]
  constructor
  · rw [hkey]
    exact b64url_roundtrip _
      (fun b hmem => hb b (List.drop_subset _ _ (List.take_subset _ _ hmem)))
  · simp only [List.length_take, List.length_drop]
    omega

/-- Witness for C6 at the empty environment and the entropy stream
0, 1, ..., 55. -/
theorem c6_generated_fernet_key_32_bytes_witness :
    b64urlDecode ((loadConfig [] envEmpty (List.range 56)).1.FERNET_KEY).data =
      some (((List.range 56).drop 24).take 32) ∧
    (((List.range 56).drop 24).take 32).length = 32 :=
  c6_generated_fernet_key_32_bytes [] envEmpty (List.range 56) rfl
    (by decide) (by decide)

/-- Claim C7: two process starts in which SECRET_KEY is generated (unset in
the effective environment of each) and whose entropy sources deliver
different 24-byte draws produce different SECRET_KEY values: the generated
key is an injective image of the random bytes, so fresh randomness gives a
fresh key. -/
theorem c7_generated_secret_keys_distinct
    (file1 file2 : DotenvFile) (env1 env2 : Env) (s1 s2 : List Nat)
    (h1 : load_dotenv file1 env1 "SECRET_KEY" = none)
    (h2 : load_dotenv file2 env2 "SECRET_KEY" = none)
    (hb1 : ∀ b ∈ s1.take 24, b < 256) (hb2 : ∀ b ∈ s2.take 24, b < 256)
    (hne : s1.take 24 ≠ s2.take 24) :
    (loadConfig file1 env1 s1).1.SECRET_KEY ≠
      (loadConfig file2 env2 s2).1.SECRET_KEY := by
  have k1 : (loadConfig file1 env1 s1).1.SECRET_KEY =
      String.mk (bytesToHex (s1.take 24)) := by
    simp [loadConfig, configOf, os_getenv, h1]
  have k2 : (loadConfig file2 env2 s2).1.SECRET_KEY =
      String.mk (bytesToHex (s2.take 24)) := by
    simp [loadConfig, configOf, os_getenv, h2]
  rw [k1, k2]
  intro heq
  exact hne (bytesToHex_inj _ hb1 _ hb2 (congrArg String.data heq))

/-- Witness for C7: all-zero bytes against all-one bytes. -/
theorem c7_generated_secret_keys_distinct_witness :
    (loadConfig [] envEmpty (List.replicate 24 0)).1.SECRET_KEY ≠
      (loadConfig [] envEmpty (List.replicate 24 1)).1.SECRET_KEY :=
  c7_generated_secret_keys_distinct [] [] envEmpty envEmpty
    (List.replicate 24 0) (List.replicate 24 1) rfl rfl
    (by decide) (by decide) (by decide)

/-- Counterexample to claim C8 as stated: create_app registers six
route-handler groups, not five. -/
theorem c8_counterexample_six_mounts :
    (create_app (loadConfig [] envEmpty []).1).mounts.length = 6 ∧
    (create_app (loadConfig [] envEmpty []).1).mounts.length ≠ 5 := by
  constructor
  · rfl
  · decide

/-- Claim C8 as amended: application construction mounts exactly six
route-handler groups, pairwise distinct, under exactly the six URL mount
points /auth, /api/auth, /api/clients, /api/networks, /api/projects,
/api/users in that order, and none under any other mount point. -/
theorem c8_six_mounts_exact (c : Config) :
    (create_app c).mounts.map Prod.snd =
      ["/auth", "/api/auth", "/api/clients", "/api/networks",
       "/api/projects", "/api/users"] ∧
    (create_app c).mounts.length = 6 ∧
    ((create_app c).mounts.map Prod.fst).Nodup := by
  have h : blueprintMounts.map Prod.snd =
      ["/auth", "/api/auth", "/api/clients", "/api/networks",
       "/api/projects", "/api/users"] ∧
    blueprintMounts.length = 6 ∧
    (blueprintMounts.map Prod.fst).Nodup := by decide
  exact h

/-- Claim C9: the cookie policy of every configuration returned by
loadConfig has SESSION_COOKIE_HTTPONLY true and SESSION_COOKIE_SAMESITE
Lax, for every environment, .env file and entropy stream. -/
theorem c9_cookie_policy_constant (file : DotenvFile) (env : Env) (s : List Nat) :
    (loadConfig file env s).1.SESSION_COOKIE_HTTPONLY = true ∧
    (loadConfig file env s).1.SESSION_COOKIE_SAMESITE = "Lax" :=
  ⟨rfl, rfl⟩

/-- Claim C10: the generated defaults are computed exactly once, at
configuration creation: loadConfig consumes exactly the first 24 + 32
entropy bytes and equals the pure record configOf of the effective
environment and that fixed draw, with the rest of the entropy stream
untouched.  Every later read of a field is a projection of this one record
(create_app stores it unchanged), so all reads in a process observe the
same value and no further randomness is ever consumed. -/
theorem c10_entropy_once_config_pure (file : DotenvFile) (env : Env) (s : List Nat) :
    loadConfig file env s =
      (configOf (load_dotenv file env) (s.take 24) ((s.drop 24).take 32),
       load_dotenv file env, s.drop 56) ∧
    (create_app (loadConfig file env s).1).config = (loadConfig file env s).1 := by
  refine ⟨?_, rfl⟩
  simp [loadConfig, List.drop_drop]
